import Mathlib

/-!
Verification development for the payment/payout service.

Shallow embedding of:
- `app/payin/api/cart_payment/v1/api.py` (cart-payment API adapter:
  `create_cart_payment`, `update_cart_payment`, `request_to_model`,
  `get_legacy_payment_model`, `get_cart_payment_metadata_model`);
- `app/payout/repository/bankdb/payment_account_edit_history.py`
  (`PaymentAccountEditHistoryRepository`);
- `app/payout/api/transfer/v1/api.py` (transfer API adapter).

Databases are embedded as Lean lists of rows; `datetime` values as `Int`
(epoch instants), `timedelta` values as `Int`; `uuid4()` outputs are
threaded in as explicit parameters. Async calls are embedded as pure
state-passing functions.
-/

/-! ## Payin data model (`app.payin.core.cart_payment.model`) -/

/-- Cart type enum (spec §3: `type ∈ {ORDER_CART, ...}`); the enum module is
not under `src/`, so it is modelled with `ORDER_CART` plus a second member. -/
inductive CartType
  | ORDER_CART
  | OTHER
deriving DecidableEq, Repr

structure CartMetadata where
  reference_id : Int
  ct_reference_id : Int
  type : CartType
deriving DecidableEq, Repr

structure LegacyPayment where
  consumer_id : Option Int
  charge_id : Option Int
  stripe_customer_id : Option String
deriving DecidableEq, Repr

structure SplitPayment where
  payout_account_id : Option Int
  application_fee_amount : Option Int
deriving DecidableEq, Repr

structure CartPayment where
  id : Nat
  payer_id : String
  amount : Int
  payment_method_id : String
  capture_method : String
  cart_metadata : CartMetadata
  client_description : Option String
  payer_statement_description : Option String
  legacy_payment : Option LegacyPayment
  split_payment : Option SplitPayment
  created_at : Option Int
  updated_at : Option Int
deriving DecidableEq, Repr

/-! ## Payin request models (`app.payin.api.cart_payment.v1.request`)

Modelled from the spec: the request-schema module is not under `src/`.
Spec §3 lists `legacy_payment (optional: consumer_id, charge_id,
stripe_customer_id)` and `split_payment (optional: payout_account_id,
application_fee_amount)`; §4.1 lists the remaining request fields. -/

structure LegacyPaymentRequest where
  consumer_id : Option Int
  charge_id : Option Int
  stripe_customer_id : Option String
deriving DecidableEq, Repr

structure SplitPaymentRequest where
  payout_account_id : Option Int
  application_fee_amount : Option Int
deriving DecidableEq, Repr

structure CartMetadataRequest where
  reference_id : Int
  ct_reference_id : Int
  type : CartType
deriving DecidableEq, Repr

structure CreateCartPaymentRequest where
  payer_id : String
  amount : Int
  payment_method_id : String
  capture_method : String
  metadata : CartMetadataRequest
  client_description : Option String
  payer_statement_description : Option String
  legacy_payment : Option LegacyPaymentRequest
  split_payment : Option SplitPaymentRequest
  idempotency_key : String
  country : String
  currency : String
  payer_id_type : Option String
  payment_method_id_type : Option String
deriving DecidableEq, Repr

structure UpdateCartPaymentRequest where
  idempotency_key : String
  payer_id : String
  amount : Int
  legacy_payment : Option LegacyPaymentRequest
  client_description : Option String
  payer_statement_description : Option String
  metadata : Option CartMetadataRequest
deriving DecidableEq, Repr

/-! ## Python attribute names used via `getattr` in the adapter

`request_to_model` reads optional nested fields with
`getattr(obj, "name", None)`. Attribute names are embedded as an inductive
so that the adapter's misspelled name `appication_fee_amount` (api.py line
128) is represented exactly: it matches no field of `SplitPaymentRequest`,
so `getattr` falls back to its `None` default. -/

inductive PyAttr
  | consumer_id
  | charge_id
  | stripe_customer_id
  | payout_account_id
  | application_fee_amount
  | appication_fee_amount
deriving DecidableEq, Repr

/-- `getattr(optional LegacyPaymentRequest, attr, None)` for the
integer-valued attributes. On `None` (absent request section) or an
attribute that is not a field of the object, Python returns the default
`None`. -/
def LegacyPaymentRequest.getattrInt : Option LegacyPaymentRequest → PyAttr → Option Int
  | none, _ => none
  | some lp, .consumer_id => lp.consumer_id
  | some lp, .charge_id => lp.charge_id
  | some _, _ => none

/-- `getattr(optional LegacyPaymentRequest, attr, None)` for the
string-valued attribute `stripe_customer_id`. -/
def LegacyPaymentRequest.getattrStr : Option LegacyPaymentRequest → PyAttr → Option String
  | none, _ => none
  | some lp, .stripe_customer_id => lp.stripe_customer_id
  | some _, _ => none

/-- `getattr(optional SplitPaymentRequest, attr, None)`. Note that only the
correctly spelled `application_fee_amount` is a field of the object; the
misspelled `appication_fee_amount` hits the `None` default. -/
def SplitPaymentRequest.getattrInt : Option SplitPaymentRequest → PyAttr → Option Int
  | none, _ => none
  | some sp, .payout_account_id => sp.payout_account_id
  | some sp, .application_fee_amount => sp.application_fee_amount
  | some _, _ => none

/-! ## `request_to_model` (api.py lines 100-133) -/

/-- Embedding of `request_to_model`. `uuid4()` is threaded in as the
`freshId` parameter. The `split_payment.application_fee_amount` lookup uses
the misspelled attribute name `appication_fee_amount`, exactly as the
source does on line 128. -/
def request_to_model (freshId : Nat) (r : CreateCartPaymentRequest) : CartPayment :=
  { id := freshId
    payer_id := r.payer_id
    amount := r.amount
    payment_method_id := r.payment_method_id
    capture_method := r.capture_method
    cart_metadata :=
      { reference_id := r.metadata.reference_id
        ct_reference_id := r.metadata.ct_reference_id
        type := r.metadata.type }
    client_description := r.client_description
    payer_statement_description := r.payer_statement_description
    legacy_payment := some
      { consumer_id := LegacyPaymentRequest.getattrInt r.legacy_payment .consumer_id
        charge_id := LegacyPaymentRequest.getattrInt r.legacy_payment .charge_id
        stripe_customer_id :=
          LegacyPaymentRequest.getattrStr r.legacy_payment .stripe_customer_id }
    split_payment := some
      { payout_account_id :=
          SplitPaymentRequest.getattrInt r.split_payment .payout_account_id
        application_fee_amount :=
          SplitPaymentRequest.getattrInt r.split_payment .appication_fee_amount }
    created_at := none
    updated_at := none }

/-! ## `get_legacy_payment_model` / `get_cart_payment_metadata_model`
(api.py lines 136-159) -/

/-- Embedding of `get_legacy_payment_model`: returns `None` when the update
request carries no `legacy_payment`, otherwise rebuilds the domain
`LegacyPayment` from the request fields. -/
def get_legacy_payment_model (r : UpdateCartPaymentRequest) : Option LegacyPayment :=
  match r.legacy_payment with
  | none => none
  | some lp => some
      { consumer_id := lp.consumer_id
        stripe_customer_id := lp.stripe_customer_id
        charge_id := lp.charge_id }

/-- Embedding of `get_cart_payment_metadata_model`: returns `None` when the
update request carries no `metadata`, otherwise rebuilds `CartMetadata`. -/
def get_cart_payment_metadata_model (r : UpdateCartPaymentRequest) : Option CartMetadata :=
  match r.metadata with
  | none => none
  | some m => some
      { reference_id := m.reference_id
        ct_reference_id := m.ct_reference_id
        type := m.type }

/-! ## Errors and the create adapter's error mapping (api.py lines 42-72) -/

/-- Payin error codes (`app.payin.core.exceptions.PayinErrorCode`). The
enum module is not under `src/`; the two codes named by the adapter are
embedded exactly, and every other member of the enum is represented by the
`OTHER` constructor carrying a tag. -/
inductive PayinErrorCode
  | PAYMENT_METHOD_GET_NOT_FOUND
  | PAYMENT_METHOD_GET_PAYER_PAYMENT_METHOD_MISMATCH
  | OTHER (tag : Nat)
deriving DecidableEq, Repr

structure PaymentError where
  error_code : PayinErrorCode
  error_message : String
  retryable : Bool
deriving DecidableEq, Repr

structure PaymentException where
  http_status_code : Nat
  error_code : PayinErrorCode
  error_message : String
  retryable : Bool
deriving DecidableEq, Repr

def HTTP_200_OK : Nat := 200
def HTTP_201_CREATED : Nat := 201
def HTTP_400_BAD_REQUEST : Nat := 400
def HTTP_403_FORBIDDEN : Nat := 403
def HTTP_500_INTERNAL_SERVER_ERROR : Nat := 500

/-- The `except PaymentError` handler of `create_cart_payment` (api.py
lines 57-72): status starts at 500 and the `if`/`elif` chain lowers it to
400 or 403 for the two payment-method lookup codes, then a
`PaymentException` is raised carrying the error's code, message and
retryable flag. -/
def cart_payment_error_to_exception (payment_error : PaymentError) : PaymentException :=
  let http_status_code :=
    if payment_error.error_code = PayinErrorCode.PAYMENT_METHOD_GET_NOT_FOUND then
      HTTP_400_BAD_REQUEST
    else if payment_error.error_code
        = PayinErrorCode.PAYMENT_METHOD_GET_PAYER_PAYMENT_METHOD_MISMATCH then
      HTTP_403_FORBIDDEN
    else
      HTTP_500_INTERNAL_SERVER_ERROR
  { http_status_code := http_status_code
    error_code := payment_error.error_code
    error_message := payment_error.error_message
    retryable := payment_error.retryable }

/-- The `create_cart_payment` adapter (api.py lines 35-72): build the
domain model with `request_to_model`, call the processor's
`submit_payment`, and translate any `PaymentError` into a
`PaymentException` via the status mapping. The processor is a parameter
(its module is not under `src/`). -/
def create_cart_payment
    (submit : CartPayment → String → Except PaymentError CartPayment)
    (freshId : Nat) (r : CreateCartPaymentRequest) :
    Except PaymentException CartPayment :=
  match submit (request_to_model freshId r) r.idempotency_key with
  | Except.ok cart_payment => Except.ok cart_payment
  | Except.error payment_error => Except.error (cart_payment_error_to_exception payment_error)

/-! ## CartPayment processor, modelled from the spec

`app/payin/core/cart_payment/processor.py` is not under `src/`; only its
API adapter is. The processor operations the claims need are modelled from
spec §4.1. -/

/-- Modelled from the spec: the durable cart-payment store consumed by
`CartPaymentProcessor.submit_payment` (missing from `src/`). Spec §4.1:
"if idempotency_key already has a persisted successful result, returns the
stored CartPayment unchanged (at-most-once creation). Otherwise persists a
new CartPayment row"; each row is keyed by its idempotency_key. -/
structure PayinStore where
  rows : List (String × CartPayment)
deriving DecidableEq, Repr

/-- Lookup of the persisted successful result for an idempotency key. -/
def PayinStore.lookup (s : PayinStore) (key : String) : Option CartPayment :=
  (s.rows.find? (fun kv => kv.1 = key)).map (fun kv => kv.2)

/-- Modelled from the spec: `CartPaymentProcessor.submit_payment`
(spec §4.1; the processor module is missing from `src/`). If the
idempotency key already has a persisted result, return it unchanged and
write nothing; otherwise persist the new cart payment under the key and
return it. Returns the resulting cart payment together with the
post-call store. -/
def submit_payment (s : PayinStore) (request_cart_payment : CartPayment)
    (idempotency_key : String) : CartPayment × PayinStore :=
  match s.lookup idempotency_key with
  | some stored => (stored, s)
  | none =>
      (request_cart_payment,
        { rows := s.rows ++ [(idempotency_key, request_cart_payment)] })

/-- Number of persisted rows stored under an idempotency key. -/
def PayinStore.countKey (s : PayinStore) (key : String) : Nat :=
  (s.rows.filter (fun kv => kv.1 = key)).length

/-- Modelled from the spec: `CartPaymentProcessor.update_payment`
(spec §4.1; the processor module is missing from `src/`). "Partial-update
semantics: any omitted optional field leaves the stored value unchanged";
amount is a required field of the update request. -/
def update_payment (stored : CartPayment) (amount : Int)
    (legacy_payment : Option LegacyPayment) (client_description : Option String)
    (payer_statement_description : Option String)
    (metadata : Option CartMetadata) : CartPayment :=
  { stored with
    amount := amount
    legacy_payment :=
      match legacy_payment with
      | some lp => some lp
      | none => stored.legacy_payment
    client_description :=
      match client_description with
      | some d => some d
      | none => stored.client_description
    payer_statement_description :=
      match payer_statement_description with
      | some d => some d
      | none => stored.payer_statement_description
    cart_metadata :=
      match metadata with
      | some m => m
      | none => stored.cart_metadata }

/-- The `update_cart_payment` adapter (api.py lines 76-97): forwards the
request fields to `update_payment`, passing `get_legacy_payment_model` and
`get_cart_payment_metadata_model` for the two nested optional sections. -/
def update_cart_payment (stored : CartPayment) (r : UpdateCartPaymentRequest) : CartPayment :=
  update_payment stored r.amount (get_legacy_payment_model r)
    r.client_description r.payer_statement_description
    (get_cart_payment_metadata_model r)

/-! ## Payment account edit history
(`app/payout/repository/bankdb/payment_account_edit_history.py`)

The table is embedded as a list of rows in insertion order. `datetime`
instants are `Int`; `timedelta` values are `Int`. The row model
(`app.payout.repository.bankdb.model.payment_account_edit_history`) is not
under `src/`; its fields are modelled from spec §3: payment_account_id,
owner_type, timestamp (server-assigned at insert), change payload. -/

/-- `BankUpdateHistoryOwnerType` (`app.payout.models`, not under `src/`).
Modelled from the spec: "owner_type (enum, e.g. STORE)"; a second member
represents every non-STORE owner type. -/
inductive BankUpdateHistoryOwnerType
  | STORE
  | OTHER
deriving DecidableEq, Repr

/-- Modelled from the spec: a `PaymentAccountEditHistory` row (the model
module is missing from `src/`). `payload` stands for the change payload. -/
structure PaymentAccountEditHistory where
  payment_account_id : Int
  owner_type : BankUpdateHistoryOwnerType
  timestamp : Int
  payload : String
deriving DecidableEq, Repr

/-- Modelled from the spec: `PaymentAccountEditHistoryCreate` (the model
module is missing from `src/`). The caller may carry its own timestamp
value; `record_bank_update` is specified to ignore it. -/
structure PaymentAccountEditHistoryCreate where
  payment_account_id : Int
  owner_type : BankUpdateHistoryOwnerType
  timestamp : Option Int
  payload : String
deriving DecidableEq, Repr

/-- The column values handed to `table.insert().values(...)`: each column
is optionally set. -/
structure InsertValues where
  payment_account_id : Option Int
  owner_type : Option BankUpdateHistoryOwnerType
  timestamp : Option Int
  payload : Option String
deriving DecidableEq, Repr

/-- `data.dict(skip_defaults=True)` (repository line 113): the positional
values dictionary built from the create payload, carrying the caller's
timestamp when the caller set one. -/
def PaymentAccountEditHistoryCreate.dictSkipDefaults
    (data : PaymentAccountEditHistoryCreate) : InsertValues :=
  { payment_account_id := some data.payment_account_id
    owner_type := some data.owner_type
    timestamp := data.timestamp
    payload := some data.payload }

/-- SQLAlchemy `values(dict, timestamp=ts_now)`: keyword arguments are
merged over the positional dictionary, so the `timestamp` keyword
overwrites any timestamp carried by the dictionary. -/
def InsertValues.withTimestampKwarg (v : InsertValues) (ts_now : Int) : InsertValues :=
  { v with timestamp := some ts_now }

/-- Materialise the inserted row from the merged column values (unset
columns fall back to arbitrary defaults; `record_bank_update` sets every
column). -/
def InsertValues.toRow (v : InsertValues) : PaymentAccountEditHistory :=
  { payment_account_id := v.payment_account_id.getD 0
    owner_type := v.owner_type.getD BankUpdateHistoryOwnerType.OTHER
    timestamp := v.timestamp.getD 0
    payload := v.payload.getD "" }

/-- Embedding of `record_bank_update` (repository lines 107-118):
`ts_now = datetime.utcnow()` is threaded in as a parameter; the insert
values are `data.dict(skip_defaults=True)` merged with the
`timestamp=ts_now` keyword; the statement inserts one row and `RETURNING`
hands it back. Returns the row handed back together with the post-insert
table. -/
def record_bank_update (db : List PaymentAccountEditHistory)
    (data : PaymentAccountEditHistoryCreate) (ts_now : Int) :
    PaymentAccountEditHistory × List PaymentAccountEditHistory :=
  let row := (data.dictSkipDefaults.withTimestampKwarg ts_now).toRow
  (row, db ++ [row])

/-- Python truthiness of an `Optional[timedelta]` argument:
`None` and `timedelta(0)` are falsy, every other timedelta is truthy. -/
def timedeltaTruthy : Option Int → Bool
  | none => false
  | some d => d ≠ 0

/-- The WHERE clause of `get_most_recent_bank_update` (repository lines
56-64): `payment_account_id IS NOT NULL AND payment_account_id = pid`,
with `timestamp > now - within_last_timedelta` appended only when
`within_last_timedelta` is truthy. The embedded rows always carry a
payment_account_id, so the `IS NOT NULL` clause is always satisfied. -/
def mostRecentFilter (payment_account_id : Int) (within_last_timedelta : Option Int)
    (now : Int) (e : PaymentAccountEditHistory) : Bool :=
  e.payment_account_id = payment_account_id
    && (if timedeltaTruthy within_last_timedelta then
          decide (now - within_last_timedelta.getD 0 < e.timestamp)
        else true)

/-- `ORDER BY timestamp DESC` followed by `fetch_one`: the first row of the
descending sort, i.e. the earliest-inserted row among those with the
greatest timestamp. -/
def fetchOneMaxTimestamp : List PaymentAccountEditHistory → Option PaymentAccountEditHistory
  | [] => none
  | e :: rest =>
      match fetchOneMaxTimestamp rest with
      | none => some e
      | some best => if best.timestamp > e.timestamp then some best else some e

/-- Embedding of `get_most_recent_bank_update` (repository lines 53-71):
filter the table by the WHERE clause, order by timestamp descending, fetch
one row; `datetime.utcnow()` is threaded in as `now`. -/
def get_most_recent_bank_update (db : List PaymentAccountEditHistory)
    (payment_account_id : Int) (within_last_timedelta : Option Int)
    (now : Int) : Option PaymentAccountEditHistory :=
  fetchOneMaxTimestamp
    (db.filter (mostRecentFilter payment_account_id within_last_timedelta now))

/-- The WHERE clause of
`get_bank_updates_for_store_with_payment_account_and_time_range`
(repository lines 94-99): account match, `owner_type == STORE`,
`timestamp >= start_time`, `timestamp <= end_time`. -/
def storeTimeRangeFilter (payment_account_id : Int) (start_time end_time : Int)
    (e : PaymentAccountEditHistory) : Bool :=
  e.payment_account_id = payment_account_id
    && e.owner_type = BankUpdateHistoryOwnerType.STORE
    && decide (start_time ≤ e.timestamp)
    && decide (e.timestamp ≤ end_time)

/-- Embedding of
`get_bank_updates_for_store_with_payment_account_and_time_range`
(repository lines 91-105): fetch all rows matching the WHERE clause; the
`if rows ... else []` branch returns the empty list when nothing matched. -/
def get_bank_updates_for_store_with_payment_account_and_time_range
    (db : List PaymentAccountEditHistory) (payment_account_id : Int)
    (start_time end_time : Int) : List PaymentAccountEditHistory :=
  let rows := db.filter (storeTimeRangeFilter payment_account_id start_time end_time)
  if rows.isEmpty then [] else rows

/-- Embedding of `get_recent_bank_update_payment_account_ids` (repository
lines 73-89): the distinct payment_account_ids of rows with
`timestamp >= last_bank_account_update_allowed_at`. -/
def get_recent_bank_update_payment_account_ids
    (db : List PaymentAccountEditHistory)
    (last_bank_account_update_allowed_at : Int) : List Int :=
  ((db.filter (fun e => decide (last_bank_account_update_allowed_at ≤ e.timestamp))).map
      (fun e => e.payment_account_id)).dedup

/-! ## Transfer submission state machine, modelled from the spec

`app/payout/core/transfer/processors/submit_transfer.py` is not under
`src/`; only its API adapter (`app/payout/api/transfer/v1/api.py`) is.
The state machine is modelled from spec §4.3. -/

/-- Transfer states (spec §4.3): `CREATED → SUBMITTING → SUBMITTED`
(terminal success), `CREATED/SUBMITTING → ERROR` (terminal failure),
`retry` transitioning `ERROR → SUBMITTING`. -/
inductive TransferStatus
  | CREATED
  | SUBMITTING
  | SUBMITTED
  | ERROR
deriving DecidableEq, Repr

structure Transfer where
  id : Nat
  payout_account_id : Int
  status : TransferStatus
deriving DecidableEq, Repr

/-- Errors surfaced by `submit_transfer` (spec §7). -/
inductive TransferSubmitError
  | InvalidStateTransitionError
  | GatewayError (retryable : Bool)
deriving DecidableEq, Repr

/-- Outcome of a `submit_transfer` call: the transfer as stored after the
call, the status it held just before the gateway was contacted (when it
was), and what the call cost in gateway submissions. -/
structure SubmitTransferResult where
  transfer : Transfer
  statusBeforeGateway : Option TransferStatus
  gatewayCalls : Nat
deriving DecidableEq, Repr

/-- Modelled from the spec: `submit_transfer` (spec §4.3; the processor
module is missing from `src/`). retry=false on an already-SUBMITTED
transfer returns idempotently without a gateway call; retry=true requires
the transfer to be in ERROR, failing with `InvalidStateTransitionError`
(and no gateway call) otherwise; a submission moves the transfer to
SUBMITTING, performs one gateway call, then SUBMITTED on success or ERROR
on failure. The gateway outcome is abstracted by `gatewayOk`. -/
def submit_transfer (t : Transfer) (retry : Bool) (gatewayOk : Bool) :
    Except TransferSubmitError SubmitTransferResult :=
  if retry then
    if t.status = TransferStatus.ERROR then
      let submitting := { t with status := TransferStatus.SUBMITTING }
      if gatewayOk then
        Except.ok
          { transfer := { submitting with status := TransferStatus.SUBMITTED }
            statusBeforeGateway := some submitting.status
            gatewayCalls := 1 }
      else
        Except.ok
          { transfer := { submitting with status := TransferStatus.ERROR }
            statusBeforeGateway := some submitting.status
            gatewayCalls := 1 }
    else
      Except.error TransferSubmitError.InvalidStateTransitionError
  else
    if t.status = TransferStatus.SUBMITTED then
      Except.ok { transfer := t, statusBeforeGateway := none, gatewayCalls := 0 }
    else
      let submitting := { t with status := TransferStatus.SUBMITTING }
      if gatewayOk then
        Except.ok
          { transfer := { submitting with status := TransferStatus.SUBMITTED }
            statusBeforeGateway := some submitting.status
            gatewayCalls := 1 }
      else
        Except.ok
          { transfer := { submitting with status := TransferStatus.ERROR }
            statusBeforeGateway := some submitting.status
            gatewayCalls := 1 }

/-- Gateway call count of a `submit_transfer` outcome: a rejected call
performed none. -/
def submitGatewayCalls : Except TransferSubmitError SubmitTransferResult → Nat
  | Except.ok r => r.gatewayCalls
  | Except.error _ => 0

/-! ## Spec-side predicate for the amended most-recent claim -/

/-- Match predicate of the amended most-recent-bank-update claim: the
account matches, and when a timedelta is supplied and nonzero the
timestamp lies strictly inside the window; a supplied zero timedelta
imposes no restriction (Python truthiness of `timedelta(0)`). -/
def specMostRecentMatch (pid : Int) (delta : Option Int) (now : Int)
    (e : PaymentAccountEditHistory) : Bool :=
  e.payment_account_id = pid &&
    (match delta with
     | none => true
     | some d => d = 0 || decide (now - d < e.timestamp))

/-! ## Helper lemmas -/

lemma mostRecentFilter_eq_spec (pid : Int) (delta : Option Int) (now : Int)
    (e : PaymentAccountEditHistory) :
    mostRecentFilter pid delta now e = specMostRecentMatch pid delta now e := by
  cases delta with
  | none => simp [mostRecentFilter, specMostRecentMatch, timedeltaTruthy]
  | some d =>
    by_cases hd : d = 0
    · subst hd
      simp [mostRecentFilter, specMostRecentMatch, timedeltaTruthy]
    · simp [mostRecentFilter, specMostRecentMatch, timedeltaTruthy, hd, Option.getD]

lemma fetchOneMaxTimestamp_eq_none_iff (l : List PaymentAccountEditHistory) :
    fetchOneMaxTimestamp l = none ↔ l = [] := by
  induction l with
  | nil => simp [fetchOneMaxTimestamp]
  | cons e rest ih =>
    simp only [fetchOneMaxTimestamp]
    cases h : fetchOneMaxTimestamp rest with
    | none => simp
    | some best =>
      by_cases hb : best.timestamp > e.timestamp <;> simp [hb]

lemma fetchOneMaxTimestamp_mem (l : List PaymentAccountEditHistory)
    (e : PaymentAccountEditHistory) (h : fetchOneMaxTimestamp l = some e) : e ∈ l := by
  induction l generalizing e with
  | nil => simp [fetchOneMaxTimestamp] at h
  | cons a rest ih =>
    simp only [fetchOneMaxTimestamp] at h
    cases hr : fetchOneMaxTimestamp rest with
    | none =>
      rw [hr] at h
      simp at h
      simp [h]
    | some best =>
      rw [hr] at h
      by_cases hb : best.timestamp > a.timestamp
      · simp [hb] at h
        subst h
        exact List.mem_cons_of_mem a (ih best hr)
      · simp [hb] at h
        simp [h]

lemma fetchOneMaxTimestamp_max (l : List PaymentAccountEditHistory)
    (e : PaymentAccountEditHistory) (h : fetchOneMaxTimestamp l = some e) :
    ∀ x ∈ l, x.timestamp ≤ e.timestamp := by
  induction l generalizing e with
  | nil => simp [fetchOneMaxTimestamp] at h
  | cons a rest ih =>
    simp only [fetchOneMaxTimestamp] at h
    cases hr : fetchOneMaxTimestamp rest with
    | none =>
      rw [hr] at h
      simp at h
      have hrest : rest = [] := (fetchOneMaxTimestamp_eq_none_iff rest).mp hr
      subst h
      subst hrest
      intro x hx
      simp at hx
      simp [hx]
    | some best =>
      rw [hr] at h
      by_cases hb : best.timestamp > a.timestamp
      · simp [hb] at h
        subst h
        intro x hx
        rcases List.mem_cons.mp hx with hxa | hxr
        · subst hxa
          exact le_of_lt hb
        · exact ih _ hr x hxr
      · simp [hb] at h
        subst h
        intro x hx
        rcases List.mem_cons.mp hx with hxa | hxr
        · subst hxa
          exact le_refl _
        · exact le_trans (ih best hr x hxr) (not_lt.mp hb)

lemma PayinStore.lookup_fresh_count (s : PayinStore) (key : String)
    (h : s.lookup key = none) : s.countKey key = 0 := by
  unfold PayinStore.lookup at h
  have hf : s.rows.find? (fun kv => kv.1 = key) = none := by
    cases hx : s.rows.find? (fun kv => kv.1 = key) with
    | none => rfl
    | some kv => rw [hx] at h; simp at h
  unfold PayinStore.countKey
  have : s.rows.filter (fun kv => kv.1 = key) = [] := by
    rw [List.filter_eq_nil_iff]
    exact List.find?_eq_none.mp hf
  simp [this]

lemma PayinStore.lookup_append_self (s : PayinStore) (key : String) (p : CartPayment)
    (h : s.lookup key = none) :
    PayinStore.lookup { rows := s.rows ++ [(key, p)] } key = some p := by
  unfold PayinStore.lookup at *
  have hf : s.rows.find? (fun kv => kv.1 = key) = none := by
    cases hx : s.rows.find? (fun kv => kv.1 = key) with
    | none => rfl
    | some kv => rw [hx] at h; simp at h
  simp only [List.find?_append, hf, Option.none_or]
  rw [List.find?_cons_of_pos _ (by simp)]
  simp

/-! ## Concrete values used by witnesses and counterexamples -/

/-- A concrete cart payment. -/
def cpExample : CartPayment :=
  { id := 11
    payer_id := "payer-1"
    amount := 500
    payment_method_id := "pm-1"
    capture_method := "auto"
    cart_metadata := { reference_id := 1, ct_reference_id := 2, type := CartType.ORDER_CART }
    client_description := none
    payer_statement_description := none
    legacy_payment := none
    split_payment := none
    created_at := none
    updated_at := none }

/-- A concrete create request with no optional sections. -/
def createReqExample : CreateCartPaymentRequest :=
  { payer_id := "payer-1"
    amount := 500
    payment_method_id := "pm-1"
    capture_method := "auto"
    metadata := { reference_id := 1, ct_reference_id := 2, type := CartType.ORDER_CART }
    client_description := none
    payer_statement_description := none
    legacy_payment := none
    split_payment := none
    idempotency_key := "key-1"
    country := "US"
    currency := "usd"
    payer_id_type := none
    payment_method_id_type := none }

/-- A concrete create request whose split_payment section is present, with
an application fee of 30. -/
def createReqWithSplit : CreateCartPaymentRequest :=
  { createReqExample with
    split_payment := some { payout_account_id := some 7, application_fee_amount := some 30 } }

/-- A concrete payment error with a code outside the two specially mapped
codes. -/
def peExampleOther : PaymentError :=
  { error_code := PayinErrorCode.OTHER 0, error_message := "boom", retryable := true }

/-! ## Claim theorems -/

/-- C1: for every valid create request payload, calling `submit_payment`
twice with the same idempotency_key and an identical payload returns a
CartPayment with the same id both times and persists exactly one
CartPayment row under that key; the second call performs no additional
durable write (the store after the second call is the store after the
first). -/
theorem submit_payment_idempotent (s : PayinStore) (key : String) (p : CartPayment)
    (hfresh : s.lookup key = none) :
    (submit_payment (submit_payment s p key).2 p key).1.id
        = (submit_payment s p key).1.id
    ∧ (submit_payment (submit_payment s p key).2 p key).2 = (submit_payment s p key).2
    ∧ (submit_payment s p key).2.countKey key = 1 := by
  have h1 : submit_payment s p key = (p, { rows := s.rows ++ [(key, p)] }) := by
    simp [submit_payment, hfresh]
  have h2 : PayinStore.lookup { rows := s.rows ++ [(key, p)] } key = some p :=
    PayinStore.lookup_append_self s key p hfresh
  have h3 : submit_payment { rows := s.rows ++ [(key, p)] } p key
      = (p, { rows := s.rows ++ [(key, p)] }) := by
    simp [submit_payment, h2]
  have h0 : s.countKey key = 0 := PayinStore.lookup_fresh_count s key hfresh
  refine ⟨?_, ?_, ?_⟩
  · rw [h1]
    simp only [h3]
  · rw [h1]
    simp only [h3]
  · rw [h1]
    show PayinStore.countKey { rows := s.rows ++ [(key, p)] } key = 1
    unfold PayinStore.countKey at *
    rw [List.filter_append]
    simp [h0]

/-- Witness for C1 at the empty store. -/
theorem submit_payment_idempotent_witness :
    (submit_payment (PayinStore.mk []) cpExample "key-1").2.countKey "key-1" = 1 :=
  (submit_payment_idempotent (PayinStore.mk []) "key-1" cpExample rfl).2.2

/-- C2: `record_bank_update` inserts a row whose timestamp equals the
server clock reading taken at write time, regardless of any timestamp
carried in the caller-supplied data, copies the caller's other fields, and
returns exactly the inserted entry (the table becomes the old table with
that entry appended). -/
theorem record_bank_update_assigns_server_timestamp
    (db : List PaymentAccountEditHistory) (data : PaymentAccountEditHistoryCreate)
    (ts_now : Int) :
    (record_bank_update db data ts_now).1.timestamp = ts_now
    ∧ (record_bank_update db data ts_now).1.payment_account_id = data.payment_account_id
    ∧ (record_bank_update db data ts_now).1.owner_type = data.owner_type
    ∧ (record_bank_update db data ts_now).1.payload = data.payload
    ∧ (record_bank_update db data ts_now).2
        = db ++ [(record_bank_update db data ts_now).1] :=
  ⟨rfl, rfl, rfl, rfl, rfl⟩

/-- C3: when the processor's `submit_payment` raises a `PaymentError`, the
`create_cart_payment` adapter re-raises a `PaymentException` carrying the
same error_code, error_message and retryable flag, with HTTP status 400
for PAYMENT_METHOD_GET_NOT_FOUND, 403 for
PAYMENT_METHOD_GET_PAYER_PAYMENT_METHOD_MISMATCH, and 500 for every other
error code. -/
theorem create_cart_payment_error_mapping
    (submit : CartPayment → String → Except PaymentError CartPayment)
    (freshId : Nat) (r : CreateCartPaymentRequest) (pe : PaymentError)
    (hraise : submit (request_to_model freshId r) r.idempotency_key = Except.error pe) :
    ∃ ex : PaymentException,
      create_cart_payment submit freshId r = Except.error ex
      ∧ ex.error_code = pe.error_code
      ∧ ex.error_message = pe.error_message
      ∧ ex.retryable = pe.retryable
      ∧ (pe.error_code = PayinErrorCode.PAYMENT_METHOD_GET_NOT_FOUND →
          ex.http_status_code = HTTP_400_BAD_REQUEST)
      ∧ (pe.error_code = PayinErrorCode.PAYMENT_METHOD_GET_PAYER_PAYMENT_METHOD_MISMATCH →
          ex.http_status_code = HTTP_403_FORBIDDEN)
      ∧ (pe.error_code ≠ PayinErrorCode.PAYMENT_METHOD_GET_NOT_FOUND →
          pe.error_code ≠ PayinErrorCode.PAYMENT_METHOD_GET_PAYER_PAYMENT_METHOD_MISMATCH →
          ex.http_status_code = HTTP_500_INTERNAL_SERVER_ERROR) := by
  refine ⟨cart_payment_error_to_exception pe, ?_, rfl, rfl, rfl, ?_, ?_, ?_⟩
  · unfold create_cart_payment
    rw [hraise]
  · intro h
    simp [cart_payment_error_to_exception, h]
  · intro h
    simp [cart_payment_error_to_exception, h]
  · intro h1 h2
    simp [cart_payment_error_to_exception, h1, h2]

/-- Witness for C3 with a processor that always raises an error of a
non-special code. -/
theorem create_cart_payment_error_mapping_witness :
    ∃ ex : PaymentException,
      create_cart_payment (fun _ _ => Except.error peExampleOther) 0 createReqExample
          = Except.error ex
      ∧ ex.http_status_code = HTTP_500_INTERNAL_SERVER_ERROR := by
  obtain ⟨ex, hrun, _, _, _, _, _, h500⟩ :=
    create_cart_payment_error_mapping (fun _ _ => Except.error peExampleOther) 0
      createReqExample peExampleOther rfl
  exact ⟨ex, hrun, h500 (by decide) (by decide)⟩

/-- C7 (code bug witness): on a request whose split_payment carries an
application fee of 30, `request_to_model` builds a CartPayment whose
split_payment.application_fee_amount is None — the source reads the
misspelled attribute `appication_fee_amount` (api.py line 128), so the
`getattr` default None always wins — while payout_account_id is copied
correctly. -/
theorem request_to_model_drops_application_fee :
    createReqWithSplit.split_payment
        = some { payout_account_id := some 7, application_fee_amount := some 30 }
    ∧ (request_to_model 0 createReqWithSplit).split_payment
        = some { payout_account_id := some 7, application_fee_amount := none } :=
  ⟨rfl, rfl⟩

/-- C10: `request_to_model` always constructs a CartPayment with non-None
legacy_payment and split_payment sub-objects, with the sub-object fields
None when the corresponding request section is absent, the id equal to the
freshly generated uuid regardless of the request payload, and created_at
and updated_at both None. -/
theorem request_to_model_defaults (freshId : Nat) (r : CreateCartPaymentRequest) :
    (request_to_model freshId r).id = freshId
    ∧ (request_to_model freshId r).created_at = none
    ∧ (request_to_model freshId r).updated_at = none
    ∧ ((request_to_model freshId r).legacy_payment).isSome = true
    ∧ ((request_to_model freshId r).split_payment).isSome = true
    ∧ (r.legacy_payment = none →
        (request_to_model freshId r).legacy_payment
          = some { consumer_id := none, charge_id := none, stripe_customer_id := none })
    ∧ (r.split_payment = none →
        (request_to_model freshId r).split_payment
          = some { payout_account_id := none, application_fee_amount := none }) := by
  refine ⟨rfl, rfl, rfl, rfl, rfl, ?_, ?_⟩
  · intro h
    simp [request_to_model, LegacyPaymentRequest.getattrInt,
      LegacyPaymentRequest.getattrStr, h]
  · intro h
    simp [request_to_model, SplitPaymentRequest.getattrInt, h]

/-- Witness for C10 at a request with both optional sections absent. -/
theorem request_to_model_defaults_witness :
    (request_to_model 3 createReqExample).legacy_payment
        = some { consumer_id := none, charge_id := none, stripe_customer_id := none }
    ∧ (request_to_model 3 createReqExample).split_payment
        = some { payout_account_id := none, application_fee_amount := none } :=
  ⟨(request_to_model_defaults 3 createReqExample).2.2.2.2.2.1 rfl,
   (request_to_model_defaults 3 createReqExample).2.2.2.2.2.2 rfl⟩

/-- A concrete history row at timestamp 5. -/
def histExample : PaymentAccountEditHistory :=
  { payment_account_id := 1
    owner_type := BankUpdateHistoryOwnerType.STORE
    timestamp := 5
    payload := "bank-change" }

/-- C4 counterexample: at `within_last_timedelta = timedelta(0)` (supplied)
and `now = 10`, no stored entry has timestamp strictly greater than
`now - 0 = 10`, so the claim requires the result `None`; the code tests
Python truthiness, `timedelta(0)` is falsy, the window clause is skipped,
and the row at timestamp 5 is returned. -/
theorem get_most_recent_bank_update_zero_window_counterexample :
    get_most_recent_bank_update [histExample] 1 (some 0) 10 = some histExample
    ∧ ∀ e ∈ [histExample], ¬((10 : Int) - 0 < e.timestamp) := by
  constructor
  · rfl
  · decide

/-- C4 (amended): `get_most_recent_bank_update` returns a stored entry of
greatest timestamp among the entries for the account — restricted, when
within_last_timedelta is supplied AND nonzero, to entries whose timestamp
is strictly greater than now minus the timedelta; a supplied zero
timedelta imposes no window — and returns None exactly when no such entry
exists. -/
theorem get_most_recent_bank_update_amended (db : List PaymentAccountEditHistory)
    (pid : Int) (delta : Option Int) (now : Int) :
    (get_most_recent_bank_update db pid delta now = none ↔
       ∀ e ∈ db, specMostRecentMatch pid delta now e = false)
    ∧ (∀ e, get_most_recent_bank_update db pid delta now = some e →
         e ∈ db ∧ specMostRecentMatch pid delta now e = true
         ∧ ∀ x ∈ db, specMostRecentMatch pid delta now x = true →
             x.timestamp ≤ e.timestamp) := by
  have hfe : db.filter (mostRecentFilter pid delta now)
      = db.filter (specMostRecentMatch pid delta now) :=
    List.filter_congr (fun x _ => mostRecentFilter_eq_spec pid delta now x)
  have hget : get_most_recent_bank_update db pid delta now
      = fetchOneMaxTimestamp (db.filter (specMostRecentMatch pid delta now)) := by
    unfold get_most_recent_bank_update
    rw [hfe]
  constructor
  · rw [hget, fetchOneMaxTimestamp_eq_none_iff, List.filter_eq_nil_iff]
    constructor
    · intro h e he
      exact Bool.not_eq_true _ ▸ (Bool.eq_false_iff.mpr (h e he))
    · intro h e he
      rw [h e he]
      simp
  · intro e he
    rw [hget] at he
    have hmem := fetchOneMaxTimestamp_mem _ e he
    have hmax := fetchOneMaxTimestamp_max _ e he
    obtain ⟨hdb, hpred⟩ := List.mem_filter.mp hmem
    refine ⟨hdb, hpred, ?_⟩
    intro x hx hpx
    exact hmax x (List.mem_filter.mpr ⟨hx, hpx⟩)

/-- Witness for C4's amended theorem at a concrete store with a zero
window. -/
theorem get_most_recent_bank_update_amended_witness :
    histExample ∈ [histExample]
    ∧ specMostRecentMatch 1 (some 0) 10 histExample = true
    ∧ ∀ x ∈ [histExample], specMostRecentMatch 1 (some 0) 10 x = true →
        x.timestamp ≤ histExample.timestamp :=
  (get_most_recent_bank_update_amended [histExample] 1 (some 0) 10).2 histExample rfl

/-- C5: the repository preserves all previously stored entries:
`record_bank_update` only appends — the prior table survives as the
unchanged prefix of the new table, which is the old table plus exactly the
one returned row — and the read operations are embedded as pure functions
of the table, modifying nothing. -/
theorem payment_account_edit_history_append_only
    (db : List PaymentAccountEditHistory) (data : PaymentAccountEditHistoryCreate)
    (ts_now : Int) :
    ((record_bank_update db data ts_now).2).take db.length = db
    ∧ (record_bank_update db data ts_now).2
        = db ++ [(record_bank_update db data ts_now).1]
    ∧ ((record_bank_update db data ts_now).2).length = db.length + 1 := by
  refine ⟨?_, rfl, ?_⟩
  · exact List.take_left db _
  · simp [record_bank_update]

/-- A concrete update request that omits every optional field. -/
def updReqExample : UpdateCartPaymentRequest :=
  { idempotency_key := "key-2"
    payer_id := "payer-1"
    amount := 700
    legacy_payment := none
    client_description := none
    payer_statement_description := none
    metadata := none }

/-- C6: partial-update frame condition: the adapter passes None for
legacy_payment and metadata exactly when the update request omits them,
and every optional field omitted from the request keeps its prior stored
value across `update_cart_payment`. -/
theorem update_cart_payment_frame (stored : CartPayment) (r : UpdateCartPaymentRequest) :
    (get_legacy_payment_model r = none ↔ r.legacy_payment = none)
    ∧ (get_cart_payment_metadata_model r = none ↔ r.metadata = none)
    ∧ (r.legacy_payment = none →
        (update_cart_payment stored r).legacy_payment = stored.legacy_payment)
    ∧ (r.client_description = none →
        (update_cart_payment stored r).client_description = stored.client_description)
    ∧ (r.payer_statement_description = none →
        (update_cart_payment stored r).payer_statement_description
          = stored.payer_statement_description)
    ∧ (r.metadata = none →
        (update_cart_payment stored r).cart_metadata = stored.cart_metadata) := by
  refine ⟨?_, ?_, ?_, ?_, ?_, ?_⟩
  · cases h : r.legacy_payment <;> simp [get_legacy_payment_model, h]
  · cases h : r.metadata <;> simp [get_cart_payment_metadata_model, h]
  · intro h
    simp [update_cart_payment, update_payment, get_legacy_payment_model, h]
  · intro h
    simp [update_cart_payment, update_payment, h]
  · intro h
    simp [update_cart_payment, update_payment, h]
  · intro h
    simp [update_cart_payment, update_payment, get_cart_payment_metadata_model, h]

/-- Witness for C6 at a stored payment and a request omitting every
optional field. -/
theorem update_cart_payment_frame_witness :
    (update_cart_payment cpExample updReqExample).legacy_payment = cpExample.legacy_payment
    ∧ (update_cart_payment cpExample updReqExample).cart_metadata = cpExample.cart_metadata :=
  ⟨(update_cart_payment_frame cpExample updReqExample).2.2.1 rfl,
   (update_cart_payment_frame cpExample updReqExample).2.2.2.2.2 rfl⟩

/-- C8: `submit_transfer` with retry=true fails with
InvalidStateTransitionError and performs no gateway call when the transfer
is not in ERROR (for example CREATED); from ERROR it succeeds, the
transfer passing through SUBMITTING before the gateway is contacted. -/
theorem submit_transfer_retry_requires_error (t : Transfer) (g : Bool) :
    (t.status ≠ TransferStatus.ERROR →
       submit_transfer t true g
           = Except.error TransferSubmitError.InvalidStateTransitionError
       ∧ submitGatewayCalls (submit_transfer t true g) = 0)
    ∧ (t.status = TransferStatus.ERROR →
       ∃ res, submit_transfer t true g = Except.ok res
         ∧ res.statusBeforeGateway = some TransferStatus.SUBMITTING) := by
  constructor
  · intro h
    constructor
    · simp [submit_transfer, h]
    · simp [submit_transfer, h, submitGatewayCalls]
  · intro h
    cases g with
    | false =>
        refine ⟨{ transfer := { t with status := TransferStatus.ERROR }
                  statusBeforeGateway := some TransferStatus.SUBMITTING
                  gatewayCalls := 1 }, ?_, rfl⟩
        simp [submit_transfer, h]
    | true =>
        refine ⟨{ transfer := { t with status := TransferStatus.SUBMITTED }
                  statusBeforeGateway := some TransferStatus.SUBMITTING
                  gatewayCalls := 1 }, ?_, rfl⟩
        simp [submit_transfer, h]

/-- Witness for C8: retry on a CREATED transfer is rejected; retry on an
ERROR transfer reaches SUBMITTING. -/
theorem submit_transfer_retry_requires_error_witness :
    (submit_transfer { id := 1, payout_account_id := 42, status := TransferStatus.CREATED }
        true true = Except.error TransferSubmitError.InvalidStateTransitionError)
    ∧ ∃ res,
        submit_transfer { id := 1, payout_account_id := 42, status := TransferStatus.ERROR }
            true true = Except.ok res
        ∧ res.statusBeforeGateway = some TransferStatus.SUBMITTING :=
  ⟨((submit_transfer_retry_requires_error
      { id := 1, payout_account_id := 42, status := TransferStatus.CREATED } true).1
        (by decide)).1,
   (submit_transfer_retry_requires_error
      { id := 1, payout_account_id := 42, status := TransferStatus.ERROR } true).2 rfl⟩

/-- C9: the store/time-range query returns exactly the stored entries
whose payment_account_id matches, whose owner_type is STORE and whose
timestamp lies in the inclusive range [start_time, end_time], and it is
empty exactly when no stored entry matches. -/
theorem get_bank_updates_time_range_spec (db : List PaymentAccountEditHistory)
    (pid start_time end_time : Int) :
    (∀ e, e ∈ get_bank_updates_for_store_with_payment_account_and_time_range
            db pid start_time end_time ↔
       (e ∈ db ∧ e.payment_account_id = pid
         ∧ e.owner_type = BankUpdateHistoryOwnerType.STORE
         ∧ start_time ≤ e.timestamp ∧ e.timestamp ≤ end_time))
    ∧ (get_bank_updates_for_store_with_payment_account_and_time_range
            db pid start_time end_time = [] ↔
       ∀ e ∈ db, ¬(e.payment_account_id = pid
         ∧ e.owner_type = BankUpdateHistoryOwnerType.STORE
         ∧ start_time ≤ e.timestamp ∧ e.timestamp ≤ end_time)) := by
  have hcollapse : get_bank_updates_for_store_with_payment_account_and_time_range
      db pid start_time end_time
      = db.filter (storeTimeRangeFilter pid start_time end_time) := by
    show (if (db.filter (storeTimeRangeFilter pid start_time end_time)).isEmpty then []
          else db.filter (storeTimeRangeFilter pid start_time end_time))
        = db.filter (storeTimeRangeFilter pid start_time end_time)
    by_cases he : (db.filter (storeTimeRangeFilter pid start_time end_time)).isEmpty
    · rw [if_pos he]
      exact (List.isEmpty_iff.mp he).symm
    · rw [if_neg he]
  constructor
  · intro e
    rw [hcollapse, List.mem_filter]
    simp [storeTimeRangeFilter, and_assoc]
  · rw [hcollapse, List.filter_eq_nil_iff]
    constructor
    · intro h e he hcontra
      refine h e he ?_
      simp only [storeTimeRangeFilter, Bool.and_eq_true, decide_eq_true_eq, and_assoc]
      tauto
    · intro h e he hp
      have hprop : e.payment_account_id = pid
          ∧ e.owner_type = BankUpdateHistoryOwnerType.STORE
          ∧ start_time ≤ e.timestamp ∧ e.timestamp ≤ end_time := by
        simpa [storeTimeRangeFilter, and_assoc] using hp
      exact h e he hprop
